import Mathlib

/-!
# Verification of the EduFundia scoring and budget-recommendation core

Shallow embedding, over exact rational arithmetic, of the scoring and
budget-recommendation logic of the EduFundia backend:

* `app/services/risk_service.py` — financial stress score, budget
  compliance, dropout risk, scholarship success, year risk;
* `app/integrations/vertex_ai.py` — city cost index, rule-based budget
  generator, AI budget validation pass, AI fallback control flow;
* `app/services/budget_service.py` — budget alert checking;
* `app/services/scholarship_service.py` — eligibility scoring.

Numbers are modelled by `ℚ`.  Fallible code (code that can raise a
`ZeroDivisionError`) is modelled with `Option`.  Python truthiness on
optional numerics (`x or d` is `d` when `x` is `None` or `0`) is modelled
by `pyOr`.
-/

set_option maxHeartbeats 1000000

namespace EduFundia

/-- Python `x or d` for an optional numeric `x`: `None` and `0` are falsy. -/
def pyOr (o : Option ℚ) (d : ℚ) : ℚ :=
  match o with
  | none => d
  | some x => if x = 0 then d else x

/-- Python `x or d` for a numeric `x`: `0` is falsy. -/
def pyOrQ (x d : ℚ) : ℚ :=
  if x = 0 then d else x

/-- Student record fields consumed by the scoring core
(`app/models/student.py`). -/
structure Student where
  family_annual_income : ℚ
  monthly_allowance : Option ℚ
  has_education_loan : Bool
  education_loan_amount : Option ℚ
  current_cgpa : Option ℚ
  current_year : ℤ
  city : String
  caste_category : String
  gender : String
  course_name : String
  state : String
  last_semester_percentage : Option ℚ

/-- Budget status enumeration (`app/models/budget.py`). -/
inductive BudgetStatus where
  | active
  | completed
  | exceeded
  | cancelled
  | archived
deriving DecidableEq

/-- Budget record fields consumed by the scoring/alert core.  Dates are
modelled as integer day numbers and alert timestamps as integer hours
(`app/models/budget.py`). -/
structure Budget where
  total_amount : ℚ
  spent_amount : ℚ
  alert_threshold : ℚ
  status : BudgetStatus
  start_date : ℤ
  end_date : ℤ
  last_alert_sent_at : Option ℤ

/-- Monthly income used across the services:
`student.monthly_allowance or (student.family_annual_income / 12)`. -/
def monthlyIncome (s : Student) : ℚ :=
  pyOr s.monthly_allowance (s.family_annual_income / 12)

/-- Factor 1 of `calculate_financial_stress_score`
(`risk_service.py` lines 54-59): expense-to-income sub-score. -/
def expenseScore (s : Student) (monthly_expenses : ℚ) : ℚ :=
  let monthly_income := monthlyIncome s
  if 0 < monthly_income then
    min (monthly_expenses / monthly_income * 100) 100
  else
    100

/-- Factor 2 of `calculate_financial_stress_score`
(`risk_service.py` lines 61-67): debt burden sub-score. -/
def debtScore (s : Student) : ℚ :=
  match s.education_loan_amount with
  | none => 0
  | some loan =>
    if s.has_education_loan ∧ loan ≠ 0 then
      if 0 < s.family_annual_income then
        min (loan / s.family_annual_income * 200) 100
      else 0
    else 0

/-- Factor 3 of `calculate_financial_stress_score`
(`risk_service.py` lines 69-78): savings buffer sub-score. -/
def savingsScore (s : Student) (monthly_expenses : ℚ) : ℚ :=
  let monthly_income := monthlyIncome s
  if 0 < monthly_income then
    if monthly_expenses < monthly_income * 0.8 then 20
    else if monthly_income ≤ monthly_expenses then 100
    else 0
  else 0

/-- Per-budget compliance penalty before the final cap
(`risk_service.py` lines 115-122). -/
def compliancePenalty (u : ℚ) : ℚ :=
  if 0.8 ≤ u ∧ u ≤ 0.9 then 0
  else if 1 < u then 100
  else |u - 0.85| * 200

/-- `RiskService._calculate_budget_compliance_score`
(`risk_service.py` lines 93-127).  The caller passes the student's
ACTIVE budgets; budgets with non-positive totals are skipped by the
`if budget.total_amount > 0` guard. -/
def budgetComplianceScore (budgets : List Budget) : ℚ :=
  if budgets.isEmpty then 50
  else
    let counted := budgets.filter (fun b => 0 < b.total_amount)
    let total_utilization :=
      (counted.map
        (fun b => min (compliancePenalty (b.spent_amount / b.total_amount)) 100)).sum
    if 0 < counted.length then total_utilization / counted.length else 50

/-- `RiskService.calculate_financial_stress_score`
(`risk_service.py` lines 25-91).  `expenses` is the list of expense
amounts of the trailing 30 days; the SQL `COALESCE(SUM(amount), 0)` is
the list sum. -/
def calculateFinancialStressScore
    (s : Student) (expenses : List ℚ) (budgets : List Budget) : ℚ :=
  let monthly_expenses := expenses.sum
  let stress_score :=
    expenseScore s monthly_expenses * 0.40 +
    debtScore s * 0.25 +
    savingsScore s monthly_expenses * 0.20 +
    budgetComplianceScore budgets * 0.15
  min (max stress_score 0) 100

/-- Scholarship application status.  `app/models/scholarship.py` is not
part of the sources; the six members referenced by
`risk_service.py` lines 193-197 are modelled. -/
inductive ApplicationStatus where
  | approved
  | awarded
  | disbursed
  | rejected
  | submitted
  | under_review
deriving DecidableEq

/-- `RiskService._calculate_scholarship_success_score`
(`risk_service.py` lines 176-204). -/
def scholarshipSuccessScore (apps : List ApplicationStatus) : ℚ :=
  if apps.isEmpty then 50
  else
    let successful := apps.countP
      (fun a => a = .approved ∨ a = .awarded ∨ a = .disbursed)
    let total_considered := apps.countP
      (fun a => a = .approved ∨ a = .awarded ∨ a = .disbursed ∨
                a = .rejected ∨ a = .submitted ∨ a = .under_review)
    if total_considered = 0 then 50
    else 100 - ((successful : ℚ) / (total_considered : ℚ)) * 100

/-- `RiskService._calculate_year_risk_factor`
(`risk_service.py` lines 206-214). -/
def yearRiskFactor (current_year : ℤ) : ℚ :=
  if current_year = 1 then 70
  else if 4 ≤ current_year then 60
  else 40

/-- Academic-performance factor of `calculate_dropout_risk_score`
(`risk_service.py` lines 148-158); `if student.current_cgpa:` is falsy
for `None` and for `0`. -/
def academicFactor (cgpa : Option ℚ) : ℚ :=
  match cgpa with
  | some c =>
    if c ≠ 0 then
      if c < 6 then 80 * 0.2
      else if c < 7 then 40 * 0.2
      else 10 * 0.2
    else 30 * 0.2
  | none => 30 * 0.2

/-- `RiskService.calculate_dropout_risk_score`
(`risk_service.py` lines 129-174). -/
def calculateDropoutRiskScore
    (s : Student) (expenses : List ℚ) (budgets : List Budget)
    (apps : List ApplicationStatus) : ℚ :=
  let financial_factor := calculateFinancialStressScore s expenses budgets * 0.6
  let academic_factor := academicFactor s.current_cgpa
  let scholarship_factor := scholarshipSuccessScore apps * 0.1
  let year_factor := yearRiskFactor s.current_year * 0.1
  min (max (financial_factor + academic_factor + scholarship_factor + year_factor) 0) 100

/-- Python `round(y)`: round half to even. -/
def roundHalfEven (y : ℚ) : ℤ :=
  if y - ⌊y⌋ < 1/2 then ⌊y⌋
  else if 1/2 < y - ⌊y⌋ then ⌊y⌋ + 1
  else if ⌊y⌋ % 2 = 0 then ⌊y⌋ else ⌊y⌋ + 1

/-- Python `round(x, 2)`: round to two decimal places, half to even. -/
def round2 (x : ℚ) : ℚ := (roundHalfEven (x * 100) : ℚ) / 100

/-- City cost-of-living table of `VertexAIClient._get_city_cost_index`
(`vertex_ai.py` lines 176-231). -/
def cityCosts : List (String × ℚ) :=
  [("mumbai", 1.5), ("bombay", 1.5),
   ("delhi", 1.3), ("new delhi", 1.3),
   ("bangalore", 1.4), ("bengaluru", 1.4),
   ("chennai", 1.2), ("madras", 1.2),
   ("hyderabad", 1.1),
   ("pune", 1.2), ("poona", 1.2),
   ("kolkata", 1.0), ("calcutta", 1.0),
   ("ahmedabad", 0.9),
   ("jaipur", 0.8),
   ("lucknow", 0.8),
   ("kanpur", 0.7),
   ("nagpur", 0.8),
   ("indore", 0.8),
   ("thane", 1.3),
   ("bhopal", 0.8),
   ("visakhapatnam", 0.8),
   ("patna", 0.8),
   ("vadodara", 0.9),
   ("ghaziabad", 1.0),
   ("ludhiana", 0.8),
   ("agra", 0.7),
   ("nashik", 0.9),
   ("faridabad", 1.0),
   ("meerut", 0.8),
   ("rajkot", 0.8),
   ("kalyan", 1.2),
   ("vasai", 1.2),
   ("varanasi", 0.7),
   ("srinagar", 0.8),
   ("aurangabad", 0.8),
   ("dhanbad", 0.7),
   ("amritsar", 0.8),
   ("navi mumbai", 1.4),
   ("allahabad", 0.7),
   ("ranchi", 0.8),
   ("howrah", 0.9),
   ("coimbatore", 0.9),
   ("jabalpur", 0.7),
   ("gwalior", 0.7),
   ("vijayawada", 0.8),
   ("jodhpur", 0.7),
   ("madurai", 0.8),
   ("raipur", 0.8),
   ("kota", 0.7),
   ("guwahati", 0.8),
   ("chandigarh", 1.1),
   ("solapur", 0.7),
   ("hubli", 0.7),
   ("dharwad", 0.7),
   ("tirunelveli", 0.7),
   ("tiruchirappalli", 0.8)]

/-- Python `str.lower()` on the character data. -/
def pyLower (s : String) : String := ⟨s.data.map Char.toLower⟩

/-- `VertexAIClient._get_city_cost_index`: lowercased lookup, default 1.0. -/
def getCityCostIndex (city : String) : ℚ :=
  (cityCosts.lookup (pyLower city)).getD 1

/-- One category allocation of a budget recommendation
(`{"amount": ..., "percentage": ..., "rationale": ...}`). -/
structure CatAlloc where
  amount : ℚ
  percentage : ℚ
  rationale : String
deriving DecidableEq

/-- The budget-recommendation dictionary produced by the AI parse and by
the rule-based generator (`vertex_ai.py`). -/
structure BudgetData where
  total_monthly_budget : ℚ
  categories : List (String × CatAlloc)
  ai_confidence_score : ℚ
  key_recommendations : List String
  risk_warnings : List String
deriving DecidableEq

/-- Sum of the per-category amounts of a recommendation. -/
def amtSum (bd : BudgetData) : ℚ := (bd.categories.map (fun p => p.2.amount)).sum

/-- Sum of the per-category percentages of a recommendation. -/
def pctSum (bd : BudgetData) : ℚ := (bd.categories.map (fun p => p.2.percentage)).sum

/-- The essential categories of `_validate_budget_recommendation`. -/
def essentialCategories : List String := ["tuition_fee", "hostel_fee", "food"]

/-- Warning appended when the income cap fires. -/
def capWarning : String :=
  "Budget capped to 120% of monthly allowance for sustainability"

/-- First block of `_validate_budget_recommendation` (`vertex_ai.py`
lines 277-292): cap the total at `1.2 × monthly income` when the cap is
positive, scaling every amount and recomputing its percentage from the
scaled amount and the cap. -/
def capStage (bd : BudgetData) (s : Student) : BudgetData :=
  if monthlyIncome s * 1.2 < bd.total_monthly_budget ∧ 0 < monthlyIncome s * 1.2 then
    { bd with
      categories := bd.categories.map (fun p =>
        (p.1, { p.2 with
                amount := p.2.amount * (monthlyIncome s * 1.2 / bd.total_monthly_budget),
                percentage := p.2.amount * (monthlyIncome s * 1.2 / bd.total_monthly_budget) /
                  (monthlyIncome s * 1.2) * 100 })),
      total_monthly_budget := monthlyIncome s * 1.2,
      risk_warnings := bd.risk_warnings ++ [capWarning] }
  else bd

/-- Second block of `_validate_budget_recommendation` (`vertex_ai.py`
lines 294-307): raise essential categories sitting below 10% to
exactly 10%, with the amount computed from the `total` local variable
bound BEFORE the cap, exactly as the source does. -/
def essentialsStage (total : ℚ) (bd : BudgetData) : BudgetData :=
  { bd with
    categories := bd.categories.map (fun p =>
      if p.1 ∈ essentialCategories ∧ p.2.percentage < 10 then
        (p.1, { amount := total * 0.1, percentage := 10,
                rationale := p.2.rationale ++ " (Adjusted to minimum)" })
      else p) }

/-- Third block of `_validate_budget_recommendation` (`vertex_ai.py`
lines 309-318): recompute every percentage from the amount sum when the
amount sum is positive. -/
def renormStage (bd : BudgetData) : BudgetData :=
  if 0 < amtSum bd then
    { bd with
      categories := bd.categories.map (fun p =>
        (p.1, { p.2 with percentage := p.2.amount / amtSum bd * 100 })) }
  else bd

/-- `VertexAIClient._validate_budget_recommendation`
(`vertex_ai.py` lines 269-320): income cap, essential minimums, final
percentage renormalization, in source order. -/
def validateBudgetRecommendation (bd : BudgetData) (s : Student) : BudgetData :=
  renormStage (essentialsStage bd.total_monthly_budget (capStage bd s))

/-- The fixed allocation table of `_generate_rule_based_budget`
(`vertex_ai.py` lines 338-347). -/
def standardAllocations : List (String × ℚ × String) :=
  [("tuition_fee", 40, "Academic fees and college expenses"),
   ("hostel_fee", 25, "Accommodation and utilities"),
   ("food", 20, "Food and groceries"),
   ("transport", 5, "Local transportation"),
   ("books", 5, "Study materials and books"),
   ("medical", 2, "Healthcare and insurance"),
   ("entertainment", 2, "Recreation and social activities"),
   ("savings", 1, "Emergency fund and savings")]

/-- `VertexAIClient._generate_rule_based_budget`
(`vertex_ai.py` lines 322-373).  The `expenses` argument is unused in
the source body as well. -/
def generateRuleBasedBudget (s : Student) (_expenses : List ℚ) : BudgetData :=
  let monthly_income := monthlyIncome s
  let base_amount := pyOrQ monthly_income 10000
  let city_factor := getCityCostIndex s.city
  let adjusted_amount := base_amount * city_factor
  { total_monthly_budget := round2 adjusted_amount,
    categories := standardAllocations.map (fun a =>
      (a.1, { amount := round2 (adjusted_amount * (a.2.1 / 100)),
              percentage := a.2.1, rationale := a.2.2 })),
    ai_confidence_score := 0.7,
    key_recommendations :=
      ["Consider applying for scholarships to reduce financial burden",
       "Track expenses weekly to stay within budget",
       "Look for student discounts on transportation and entertainment",
       "Build an emergency fund of at least 3 months' expenses"],
    risk_warnings :=
      ["Based on rule-based allocation due to AI service limitation",
       "Adjust percentages based on actual spending patterns",
       "Monitor spending closely during initial months"] }

/-- Outcome of the Vertex AI call plus parse step, seen from
`generate_budget_recommendation`: the call raised (or returned empty
text), the returned text contained no parseable JSON
(`_parse_budget_response` raised), or a budget dictionary was parsed. -/
inductive AiOutcome where
  | failure
  | noJson
  | parsed (bd : BudgetData)

/-- `VertexAIClient.generate_budget_recommendation`
(`vertex_ai.py` lines 46-93): control flow around the AI call.  `ready`
models `self.initialized`. -/
def generateBudgetRecommendation (ready : Bool) (outcome : AiOutcome)
    (s : Student) (expenses : List ℚ) : BudgetData :=
  if ready = false then generateRuleBasedBudget s expenses
  else
    match outcome with
    | .failure => generateRuleBasedBudget s expenses
    | .noJson => generateRuleBasedBudget s expenses
    | .parsed bd => validateBudgetRecommendation bd s

/-- Alert payload produced by `check_budget_alerts` (type and priority;
the human-readable message text is elided). -/
structure Alert where
  atype : String
  priority : String
deriving DecidableEq

/-- `BudgetService.check_budget_alerts` (`budget_service.py` lines
174-210) for an already-fetched budget.  `today` is the current day
number and `now_h` the current hour count.  Divisions that raise
`ZeroDivisionError` in the source are modelled by `none`. -/
def checkBudgetAlerts (b : Budget) (today : ℤ) (now_h : ℤ) :
    Option (List Alert) :=
  if b.status ≠ .active then some []
  else if b.total_amount = 0 then none
  else
    let utilization := b.spent_amount / b.total_amount
    let freshAlert :=
      match b.last_alert_sent_at with
      | none => true
      | some t => decide (24 < now_h - t)
    let alerts1 :=
      if b.alert_threshold ≤ utilization ∧ freshAlert = true then
        [⟨"budget_threshold", if 0.9 ≤ utilization then "high" else "medium"⟩]
      else ([] : List Alert)
    let days_passed := (today - b.start_date) + 1
    let total_days := (b.end_date - b.start_date) + 1
    if total_days = 0 then none
    else
      let expected_spending := b.total_amount / (total_days : ℚ) * (days_passed : ℚ)
      let alerts2 :=
        if expected_spending * 1.2 < b.spent_amount then
          [⟨"spending_rate", "medium"⟩]
        else ([] : List Alert)
      some (alerts1 ++ alerts2)

/-- Scholarship criteria fields consumed by the eligibility scorer
(`scholarship_service.py`). -/
structure Scholarship where
  min_income : Option ℚ
  max_income : Option ℚ
  eligible_castes : Option (List String)
  eligible_genders : Option (List String)
  eligible_courses : Option (List String)
  eligible_states : Option (List String)
  min_percentage : Option ℚ
  min_cgpa : Option ℚ

/-- Deduction of one numeric criterion guarded by Python truthiness:
`if sch_field and student_value < sch_field: score -= penalty`. -/
def numericDeduction (bound : Option ℚ) (cond : ℚ → Bool) (penalty : ℚ) : ℚ :=
  match bound with
  | none => 0
  | some m => if m ≠ 0 ∧ cond m then penalty else 0

/-- Deduction of one set-membership criterion guarded by Python
truthiness (`None` and the empty list are falsy). -/
def setDeduction (allowed : Option (List String)) (v : String) (penalty : ℚ) : ℚ :=
  match allowed with
  | none => 0
  | some l => if l ≠ [] ∧ v ∉ l then penalty else 0

/-- Deduction of one academic criterion: both the scholarship minimum
and the student value must be truthy. -/
def academicDeduction (bound : Option ℚ) (v : Option ℚ) (penalty : ℚ) : ℚ :=
  match bound, v with
  | some m, some x => if m ≠ 0 ∧ x ≠ 0 ∧ x < m then penalty else 0
  | _, _ => 0

/-- `ScholarshipService._calculate_eligibility_score`
(`scholarship_service.py` lines 188-236).  The source subtracts the
per-criterion penalties from 1.0 one by one and clamps the result to
`[0, 1]`; successive subtraction equals subtracting the sum. -/
def calculateEligibilityScore (st : Student) (sch : Scholarship) : ℚ :=
  let deductions :=
    numericDeduction sch.min_income (fun m => st.family_annual_income < m) 0.3 +
    numericDeduction sch.max_income (fun m => m < st.family_annual_income) 0.3 +
    setDeduction sch.eligible_castes st.caste_category 0.2 +
    setDeduction sch.eligible_genders st.gender 0.1 +
    setDeduction sch.eligible_courses st.course_name 0.2 +
    setDeduction sch.eligible_states st.state 0.1 +
    academicDeduction sch.min_percentage st.last_semester_percentage 0.3 +
    academicDeduction sch.min_cgpa st.current_cgpa 0.3
  max 0 (min 1 (1 - deductions))

/-- Modelled from the spec (C7 comparison): the scholarship-success
sub-score described by the spec sentence "success_rate =
(approved+awarded+disbursed)/(all terminal-state applications)", where
the terminal states are approved, awarded, disbursed and rejected;
no applications at all gives the neutral 50. -/
def specTerminalSuccessScore (apps : List ApplicationStatus) : ℚ :=
  if apps.isEmpty then 50
  else
    let successful := apps.countP
      (fun a => a = .approved ∨ a = .awarded ∨ a = .disbursed)
    let terminal := apps.countP
      (fun a => a = .approved ∨ a = .awarded ∨ a = .disbursed ∨ a = .rejected)
    if terminal = 0 then 50
    else 100 - ((successful : ℚ) / (terminal : ℚ)) * 100

/-- Modelled from the spec (C5 comparison): the monthly income as the
claim words it — "monthly allowance if present, else family annual
income / 12" — with presence, not Python truthiness, deciding. -/
def specMonthlyIncome (s : Student) : ℚ :=
  match s.monthly_allowance with
  | some a => a
  | none => s.family_annual_income / 12

theorem clamp_bounds (x : ℚ) : 0 ≤ min (max x 0) 100 ∧ min (max x 0) 100 ≤ 100 :=
  ⟨le_min (le_max_right x 0) (by norm_num), min_le_right _ _⟩

/-- C1: for every student, expense history, budget list and application
list, `calculate_financial_stress_score` and
`calculate_dropout_risk_score` both return values in `[0, 100]`. -/
theorem stress_and_dropout_scores_bounded
    (s : Student) (expenses : List ℚ) (budgets : List Budget)
    (apps : List ApplicationStatus) :
    (0 ≤ calculateFinancialStressScore s expenses budgets ∧
      calculateFinancialStressScore s expenses budgets ≤ 100) ∧
    (0 ≤ calculateDropoutRiskScore s expenses budgets apps ∧
      calculateDropoutRiskScore s expenses budgets apps ≤ 100) :=
  ⟨clamp_bounds _, clamp_bounds _⟩

/-- C3: if the AI call fails, or its text contains no parseable JSON,
`generate_budget_recommendation` returns exactly the rule-based budget
for the same student and expenses — whatever the initialization state;
no partial AI result is blended in. -/
theorem ai_failure_falls_back_to_rule_based
    (ready : Bool) (s : Student) (expenses : List ℚ) :
    generateBudgetRecommendation ready .failure s expenses =
      generateRuleBasedBudget s expenses ∧
    generateBudgetRecommendation ready .noJson s expenses =
      generateRuleBasedBudget s expenses := by
  cases ready <;> simp [generateBudgetRecommendation]

/-- Student of the first C9 scenario: family income 600000, no
allowance, Mumbai. -/
def studentMumbai : Student :=
  { family_annual_income := 600000, monthly_allowance := none,
    has_education_loan := false, education_loan_amount := none,
    current_cgpa := none, current_year := 2, city := "mumbai",
    caste_category := "general", gender := "male", course_name := "btech",
    state := "MH", last_semester_percentage := none }

/-- Student of the second C9 scenario: zero allowance and zero family
income. -/
def studentNoIncome : Student :=
  { family_annual_income := 0, monthly_allowance := some 0,
    has_education_loan := false, education_loan_amount := none,
    current_cgpa := none, current_year := 1, city := "kolkata",
    caste_category := "general", gender := "male", course_name := "btech",
    state := "WB", last_semester_percentage := none }

/-- C9: the rule-based generator computes
`adjusted_amount = (allowance or family/12 or 10000) × city_cost_index`:
income 600000 with no allowance in Mumbai (factor 1.5) gives a total of
75000 and a 40% tuition allocation of 30000; zero allowance with zero
income falls back to the 10000 floor with no division error. -/
theorem rule_based_scenarios :
    (generateRuleBasedBudget studentMumbai []).total_monthly_budget = 75000 ∧
    (generateRuleBasedBudget studentMumbai []).categories.lookup "tuition_fee" =
      some ⟨30000, 40, "Academic fees and college expenses"⟩ ∧
    (generateRuleBasedBudget studentNoIncome []).total_monthly_budget = 10000 := by
  have h1 : getCityCostIndex "mumbai" = 1.5 := rfl
  have h2 : getCityCostIndex "kolkata" = 1.0 := rfl
  refine ⟨?_, ?_, ?_⟩ <;>
    norm_num [generateRuleBasedBudget, monthlyIncome, pyOr, pyOrQ,
      h1, h2, standardAllocations,
      round2, roundHalfEven, Int.floor_eq_iff, List.lookup,
      studentMumbai, studentNoIncome]

theorem roundHalfEven_eq_of_lt (y : ℚ) (n : ℤ) (h1 : (n:ℚ) ≤ y)
    (h2 : y < (n:ℚ) + 1/2) : roundHalfEven y = n := by
  have hf : ⌊y⌋ = n := by
    rw [Int.floor_eq_iff]
    exact ⟨h1, by linarith⟩
  unfold roundHalfEven
  rw [hf, if_pos (by linarith)]

theorem roundHalfEven_eq_of_gt (y : ℚ) (n : ℤ) (h1 : (n:ℚ) + 1/2 < y)
    (h2 : y < (n:ℚ) + 1) : roundHalfEven y = n + 1 := by
  have hf : ⌊y⌋ = n := by
    rw [Int.floor_eq_iff]
    exact ⟨by linarith, by linarith⟩
  unfold roundHalfEven
  rw [hf, if_neg (by linarith), if_pos (by linarith)]

theorem roundHalfEven_eq_half_odd (y : ℚ) (n : ℤ) (h : y = (n:ℚ) + 1/2)
    (hodd : n % 2 = 1) : roundHalfEven y = n + 1 := by
  have hf : ⌊y⌋ = n := by
    rw [Int.floor_eq_iff]
    exact ⟨by linarith, by linarith⟩
  unfold roundHalfEven
  rw [hf, if_neg (by linarith), if_neg (by linarith),
    if_neg (by omega)]

theorem round2_eq_of_lt (x : ℚ) (n : ℤ) (h1 : (n:ℚ) ≤ x * 100)
    (h2 : x * 100 < (n:ℚ) + 1/2) : round2 x = (n:ℚ) / 100 := by
  unfold round2
  rw [roundHalfEven_eq_of_lt (x * 100) n h1 h2]

theorem round2_eq_of_gt (x : ℚ) (n : ℤ) (h1 : (n:ℚ) + 1/2 < x * 100)
    (h2 : x * 100 < (n:ℚ) + 1) : round2 x = ((n:ℚ) + 1) / 100 := by
  unfold round2
  rw [roundHalfEven_eq_of_gt (x * 100) n h1 h2]
  push_cast
  ring

theorem round2_eq_half_odd (x : ℚ) (n : ℤ) (h : x * 100 = (n:ℚ) + 1/2)
    (hodd : n % 2 = 1) : round2 x = ((n:ℚ) + 1) / 100 := by
  unfold round2
  rw [roundHalfEven_eq_half_odd (x * 100) n h hodd]
  push_cast
  ring

theorem roundHalfEven_err (y : ℚ) : |(roundHalfEven y : ℚ) - y| ≤ 1/2 := by
  have h0 : (⌊y⌋ : ℚ) ≤ y := Int.floor_le y
  have h1 : y < ⌊y⌋ + 1 := Int.lt_floor_add_one y
  unfold roundHalfEven
  by_cases hc1 : y - ⌊y⌋ < 1/2
  · rw [if_pos hc1, abs_le]
    constructor <;> linarith
  · by_cases hc2 : 1/2 < y - ⌊y⌋
    · rw [if_neg hc1, if_pos hc2, abs_le]
      push_cast
      constructor <;> linarith
    · rw [if_neg hc1, if_neg hc2]
      by_cases hpar : ⌊y⌋ % 2 = 0
      · rw [if_pos hpar, abs_le]
        constructor <;> linarith
      · rw [if_neg hpar, abs_le]
        push_cast
        constructor <;> linarith

theorem round2_err (x : ℚ) : |round2 x - x| ≤ 1/200 := by
  have h := roundHalfEven_err (x * 100)
  unfold round2
  rw [show (roundHalfEven (x * 100) : ℚ) / 100 - x =
        ((roundHalfEven (x * 100) : ℚ) - x * 100) / 100 by ring,
      abs_div, abs_of_pos (by norm_num : (0:ℚ) < 100)]
  linarith

/-- The eight rounded category amounts of the rule-based generator stay
within nine half-cents of the rounded total. -/
theorem ruleBased_rounding_bound (a : ℚ) :
    |round2 (a * (40/100)) + round2 (a * (25/100)) + round2 (a * (20/100)) +
      round2 (a * (5/100)) + round2 (a * (5/100)) + round2 (a * (2/100)) +
      round2 (a * (2/100)) + round2 (a * (1/100)) - round2 a| ≤ 9/200 := by
  have h1 := round2_err (a * (40/100))
  have h2 := round2_err (a * (25/100))
  have h3 := round2_err (a * (20/100))
  have h4 := round2_err (a * (5/100))
  have h5 := round2_err (a * (2/100))
  have h6 := round2_err (a * (1/100))
  have h9 := round2_err a
  rw [abs_le] at h1 h2 h3 h4 h5 h6 h9 ⊢
  constructor <;> [nlinarith [h1.1, h2.1, h3.1, h4.1, h5.1, h6.1, h9.2];
    nlinarith [h1.2, h2.2, h3.2, h4.2, h5.2, h6.2, h9.1]]

theorem listAmt_renormMap (l : List (String × CatAlloc)) (S : ℚ) :
    ((l.map (fun p => (p.1, { p.2 with percentage := p.2.amount / S * 100 }))).map
      (fun p => p.2.amount)).sum = (l.map (fun p => p.2.amount)).sum := by
  induction l with
  | nil => simp
  | cons p t ih => simp only [List.map_cons, List.sum_cons, ih]

theorem listPct_renormMap (l : List (String × CatAlloc)) (S : ℚ) :
    ((l.map (fun p => (p.1, { p.2 with percentage := p.2.amount / S * 100 }))).map
      (fun p => p.2.percentage)).sum =
      (l.map (fun p => p.2.amount)).sum / S * 100 := by
  induction l with
  | nil => simp
  | cons p t ih =>
    simp only [List.map_cons, List.sum_cons, ih]
    ring

theorem amtSum_renormStage (bd : BudgetData) : amtSum (renormStage bd) = amtSum bd := by
  unfold renormStage
  split
  · exact listAmt_renormMap bd.categories (amtSum bd)
  · rfl

theorem pctSum_renormStage (bd : BudgetData) (h : 0 < amtSum bd) :
    pctSum (renormStage bd) = 100 := by
  unfold renormStage pctSum
  rw [if_pos h, show ({ bd with
      categories := bd.categories.map (fun p =>
        (p.1, { p.2 with percentage := p.2.amount / amtSum bd * 100 })) } :
      BudgetData).categories = bd.categories.map (fun p =>
        (p.1, { p.2 with percentage := p.2.amount / amtSum bd * 100 })) from rfl,
    listPct_renormMap bd.categories (amtSum bd),
    show (bd.categories.map fun p => p.2.amount).sum = amtSum bd from rfl,
    div_self (ne_of_gt h)]
  norm_num

/-- Student whose derived monthly income is 0.055: family income 0.66,
no allowance (factor 1.0 city). -/
def studentTiny : Student :=
  { family_annual_income := 0.66, monthly_allowance := none,
    has_education_loan := false, education_loan_amount := none,
    current_cgpa := none, current_year := 1, city := "kolkata",
    caste_category := "general", gender := "male", course_name := "btech",
    state := "WB", last_semester_percentage := none }

/-- Student with a 10000 monthly allowance. -/
def studentAllowanceTenK : Student :=
  { family_annual_income := 0, monthly_allowance := some 10000,
    has_education_loan := false, education_loan_amount := none,
    current_cgpa := none, current_year := 1, city := "kanpur",
    caste_category := "general", gender := "male", course_name := "btech",
    state := "UP", last_semester_percentage := none }

/-- Parsed AI budget whose reported total (5000) disagrees with the sum
of its category amounts (3000). -/
def aiBudgetMismatch : BudgetData :=
  { total_monthly_budget := 5000,
    categories := [("tuition_fee", ⟨1500, 50, "a"⟩), ("food", ⟨1500, 50, "b"⟩)],
    ai_confidence_score := 0.9,
    key_recommendations := [],
    risk_warnings := [] }

/-- C2 counterexample: the 0.01 tolerance fails on both generators.
For `studentTiny` the rule-based adjusted amount is 0.055, whose rounded
category amounts sum to 0.04 against a rounded total of 0.06 (gap 0.02);
for `aiBudgetMismatch` the validation pass keeps the reported total 5000
while the amounts sum to 3000. -/
theorem budget_sums_counterexample :
    1/100 < |amtSum (generateRuleBasedBudget studentTiny []) -
      (generateRuleBasedBudget studentTiny []).total_monthly_budget| ∧
    1/100 < |amtSum (validateBudgetRecommendation aiBudgetMismatch studentAllowanceTenK) -
      (validateBudgetRecommendation aiBudgetMismatch studentAllowanceTenK).total_monthly_budget| := by
  have h2 : getCityCostIndex "kolkata" = 1.0 := rfl
  have hA : pyOrQ (monthlyIncome studentTiny) 10000 *
      getCityCostIndex studentTiny.city = 11/200 := by
    norm_num [pyOrQ, monthlyIncome, pyOr, studentTiny, h2]
  constructor
  · simp only [amtSum, generateRuleBasedBudget, standardAllocations,
      List.map_cons, List.map_nil, List.sum_cons, List.sum_nil, hA]
    rw [round2_eq_of_lt (11/200 * (40/100)) 2 (by norm_num) (by norm_num),
      round2_eq_of_lt (11/200 * (25/100)) 1 (by norm_num) (by norm_num),
      round2_eq_of_lt (11/200 * (20/100)) 1 (by norm_num) (by norm_num),
      round2_eq_of_lt (11/200 * (5/100)) 0 (by norm_num) (by norm_num),
      round2_eq_of_lt (11/200 * (2/100)) 0 (by norm_num) (by norm_num),
      round2_eq_of_lt (11/200 * (1/100)) 0 (by norm_num) (by norm_num),
      round2_eq_half_odd (11/200) 5 (by norm_num) (by norm_num),
      lt_abs]
    right
    norm_num
  · norm_num [amtSum, pctSum, validateBudgetRecommendation, capStage,
      essentialsStage, renormStage, monthlyIncome, pyOr,
      essentialCategories, aiBudgetMismatch, studentAllowanceTenK]

/-- C2 amended: rule-based percentages sum to exactly 100 and rule-based
amounts sum to the reported total within 0.045 (nine half-cent
roundings) — but not always within 0.01; AI-validated percentages sum to
exactly 100 whenever the validated amounts have positive sum, while the
validated amounts need not sum to the reported total at all. -/
theorem budget_sums_amended :
    (∀ (s : Student) (es : List ℚ), pctSum (generateRuleBasedBudget s es) = 100) ∧
    (∀ (s : Student) (es : List ℚ),
      |amtSum (generateRuleBasedBudget s es) -
        (generateRuleBasedBudget s es).total_monthly_budget| ≤ 9/200) ∧
    (∀ (bd : BudgetData) (s : Student),
      0 < amtSum (validateBudgetRecommendation bd s) →
      pctSum (validateBudgetRecommendation bd s) = 100) := by
  refine ⟨?_, ?_, ?_⟩
  · intro s es
    norm_num [pctSum, generateRuleBasedBudget, standardAllocations]
  · intro s es
    have h := ruleBased_rounding_bound
      (pyOrQ (monthlyIncome s) 10000 * getCityCostIndex s.city)
    simp only [amtSum, generateRuleBasedBudget, standardAllocations,
      List.map_cons, List.map_nil, List.sum_cons, List.sum_nil] at *
    rw [abs_le] at h ⊢
    constructor <;> linarith [h.1, h.2]
  · intro bd s h
    unfold validateBudgetRecommendation at h ⊢
    rw [amtSum_renormStage] at h
    exact pctSum_renormStage _ h

/-- C2 amended witness at concrete inputs. -/
theorem budget_sums_amended_witness :
    0 < amtSum (validateBudgetRecommendation aiBudgetMismatch studentMumbai) ∧
    pctSum (validateBudgetRecommendation aiBudgetMismatch studentMumbai) = 100 := by
  have hpos : 0 < amtSum (validateBudgetRecommendation aiBudgetMismatch studentMumbai) := by
    norm_num [amtSum, validateBudgetRecommendation, capStage, essentialsStage,
      renormStage, monthlyIncome, pyOr, essentialCategories,
      aiBudgetMismatch, studentMumbai]
  exact ⟨hpos, budget_sums_amended.2.2 aiBudgetMismatch studentMumbai hpos⟩

theorem clamp_mono {x y : ℚ} (h : x ≤ y) :
    min (max x 0) 100 ≤ min (max y 0) 100 :=
  min_le_min (max_le_max h le_rfl) le_rfl

theorem expenseScore_mono (s : Student) (e1 e2 : ℚ) (h : e1 ≤ e2) :
    expenseScore s e1 ≤ expenseScore s e2 := by
  unfold expenseScore
  by_cases hmi : 0 < monthlyIncome s
  · simp only [if_pos hmi]
    exact min_le_min (by gcongr) le_rfl
  · simp only [if_neg hmi]
    exact le_rfl

theorem savingsScore_mono_side (s : Student) (e1 e2 : ℚ) (h : e1 ≤ e2)
    (hside : e2 < monthlyIncome s * 0.8 ∨ monthlyIncome s * 0.8 ≤ e1) :
    savingsScore s e1 ≤ savingsScore s e2 := by
  unfold savingsScore
  by_cases hmi : 0 < monthlyIncome s
  · simp only [if_pos hmi]
    rcases hside with hs | hs
    · rw [if_pos (lt_of_le_of_lt h hs), if_pos hs]
    · rw [if_neg (not_lt.mpr (le_trans hs h)), if_neg (not_lt.mpr hs)]
      split_ifs <;> linarith
  · simp only [if_neg hmi]
    exact le_rfl

/-- Student with a 100 monthly allowance, no loan and no budgets. -/
def studentAllowance100 : Student :=
  { family_annual_income := 0, monthly_allowance := some 100,
    has_education_loan := false, education_loan_amount := none,
    current_cgpa := none, current_year := 1, city := "agra",
    caste_category := "general", gender := "male", course_name := "btech",
    state := "UP", last_semester_percentage := none }

/-- C4 counterexample: raising the 30-day expense total from 79 to 80
(crossing 80% of the 100 income) drops the savings-buffer sub-score
from 20 to 0, and the overall stress score falls from 43.1 to 39.5. -/
theorem stress_monotonicity_counterexample :
    ([(79:ℚ)].sum ≤ [(80:ℚ)].sum) ∧
    calculateFinancialStressScore studentAllowance100 [80] [] <
      calculateFinancialStressScore studentAllowance100 [79] [] := by
  constructor
  · norm_num
  · norm_num [calculateFinancialStressScore, expenseScore, savingsScore,
      debtScore, budgetComplianceScore, monthlyIncome, pyOr,
      studentAllowance100, min_def, max_def]

/-- C4 amended: the expense-to-income sub-score is monotone in the
30-day expense total, and the overall stress score is monotone as long
as the totals do not cross the `0.8 × monthly income` savings-buffer
boundary; crossing it can lower the overall score (see the
counterexample). -/
theorem stress_monotonicity_amended :
    (∀ (s : Student) (e1 e2 : ℚ), e1 ≤ e2 →
      expenseScore s e1 ≤ expenseScore s e2) ∧
    (∀ (s : Student) (bs : List Budget) (es1 es2 : List ℚ),
      es1.sum ≤ es2.sum →
      (es2.sum < monthlyIncome s * 0.8 ∨ monthlyIncome s * 0.8 ≤ es1.sum) →
      calculateFinancialStressScore s es1 bs ≤
        calculateFinancialStressScore s es2 bs) := by
  constructor
  · exact expenseScore_mono
  · intro s bs es1 es2 h hside
    unfold calculateFinancialStressScore
    apply clamp_mono
    have h1 := expenseScore_mono s es1.sum es2.sum h
    have h2 := savingsScore_mono_side s es1.sum es2.sum h hside
    linarith

/-- C4 amended witness at concrete inputs. -/
theorem stress_monotonicity_amended_witness :
    calculateFinancialStressScore studentAllowance100 [10] [] ≤
      calculateFinancialStressScore studentAllowance100 [20] [] :=
  stress_monotonicity_amended.2 studentAllowance100 [] [10] [20]
    (by norm_num)
    (Or.inl (by norm_num [monthlyIncome, pyOr, studentAllowance100]))

theorem listAmt_scaleMap (l : List (String × CatAlloc)) (c t : ℚ) :
    ((l.map (fun p => (p.1, { p.2 with
                              amount := p.2.amount * (c / t),
                              percentage := p.2.amount * (c / t) / c * 100 }))).map
      (fun p => p.2.amount)).sum =
      (l.map (fun p => p.2.amount)).sum * (c / t) := by
  induction l with
  | nil => simp
  | cons p tl ih =>
    simp only [List.map_cons, List.sum_cons, ih]
    ring

theorem essentialsStage_noop (T : ℚ) (x : BudgetData)
    (h : ∀ p ∈ x.categories, p.1 ∈ essentialCategories → 10 ≤ p.2.percentage) :
    essentialsStage T x = x := by
  unfold essentialsStage
  have hm : x.categories.map (fun p =>
      if p.1 ∈ essentialCategories ∧ p.2.percentage < 10 then
        (p.1, { amount := T * 0.1, percentage := 10,
                rationale := p.2.rationale ++ " (Adjusted to minimum)" })
      else p) = x.categories := by
    conv_rhs => rw [← List.map_id x.categories]
    apply List.map_congr_left
    intro p hp
    rw [if_neg]
    · rfl
    · rintro ⟨hmem, hlt⟩
      exact absurd (h p hp hmem) (not_le.mpr hlt)
  rw [hm]

theorem renormStage_total (bd : BudgetData) :
    (renormStage bd).total_monthly_budget = bd.total_monthly_budget := by
  unfold renormStage
  split <;> rfl

theorem renormStage_warnings (bd : BudgetData) :
    (renormStage bd).risk_warnings = bd.risk_warnings := by
  unfold renormStage
  split <;> rfl

theorem renormStage_amounts (bd : BudgetData) :
    (renormStage bd).categories.map (fun p => p.2.amount) =
      bd.categories.map (fun p => p.2.amount) := by
  unfold renormStage
  split
  · rw [List.map_map]
    rfl
  · rfl

theorem renormStage_pcts (bd : BudgetData) (h : 0 < amtSum bd) :
    (renormStage bd).categories.map (fun p => p.2.percentage) =
      bd.categories.map (fun p => p.2.amount / amtSum bd * 100) := by
  unfold renormStage
  rw [if_pos h]
  show ((bd.categories.map _).map _) = _
  rw [List.map_map]
  rfl

/-- Parsed AI budget (total 100) used against a student whose monthly
income resolves to 0. -/
def bdOverCap : BudgetData :=
  { total_monthly_budget := 100,
    categories := [("food", ⟨50, 50, "x"⟩), ("transport", ⟨50, 50, "y"⟩)],
    ai_confidence_score := 0.5,
    key_recommendations := [],
    risk_warnings := [] }

/-- Student with a 1000 monthly allowance. -/
def studentAllowance1000 : Student :=
  { family_annual_income := 0, monthly_allowance := some 1000,
    has_education_loan := false, education_loan_amount := none,
    current_cgpa := none, current_year := 1, city := "agra",
    caste_category := "general", gender := "male", course_name := "btech",
    state := "UP", last_semester_percentage := none }

/-- Parsed AI budget (total 2400) whose tuition category falls below 10%
after capping against a 1200 cap. -/
def bdEssentialLow : BudgetData :=
  { total_monthly_budget := 2400,
    categories := [("tuition_fee", ⟨48, 2, "r"⟩), ("food", ⟨2352, 98, "q"⟩)],
    ai_confidence_score := 0.5,
    key_recommendations := [],
    risk_warnings := [] }

/-- C5 counterexample, two parts.  First: for `studentNoIncome`
(allowance present but 0) the claim's cap `1.2 × 0 = 0` is exceeded by
the parsed total 100, yet the validation pass leaves the total at 100
and appends no warning, because the source requires
`max_reasonable > 0`.  Second: for `bdEssentialLow` the capped tuition
amount is not `48 × (1200/2400) = 24` — the essential-minimum step
overwrites it with `2400 × 0.1 = 240` — so not every category amount in
the output is scaled by `cap/original_total`. -/
theorem income_cap_counterexample :
    (1.2 * specMonthlyIncome studentNoIncome < bdOverCap.total_monthly_budget ∧
      (validateBudgetRecommendation bdOverCap studentNoIncome).total_monthly_budget = 100 ∧
      (validateBudgetRecommendation bdOverCap studentNoIncome).risk_warnings = []) ∧
    ((validateBudgetRecommendation bdEssentialLow studentAllowance1000).categories.lookup
        "tuition_fee" = some ⟨240, 1000/59, "r (Adjusted to minimum)"⟩ ∧
      (240 : ℚ) ≠ 48 * (1200 / 2400)) := by
  constructor
  · refine ⟨by norm_num [specMonthlyIncome, studentNoIncome, bdOverCap], ?_, ?_⟩ <;>
      norm_num [validateBudgetRecommendation, capStage, essentialsStage,
        renormStage, amtSum, monthlyIncome, pyOr, essentialCategories,
        bdOverCap, studentNoIncome]
  · constructor
    · norm_num [validateBudgetRecommendation, capStage, essentialsStage,
        renormStage, amtSum, monthlyIncome, pyOr, essentialCategories,
        bdEssentialLow, studentAllowance1000, List.lookup]
      rfl
    · norm_num

/-- C5 amended: when the Python-truthy monthly income is positive, the
parsed total exceeds the `1.2 × income` cap, every essential category
keeps at least 10% after scaling, and the parsed amounts have positive
sum, then the validated budget reports the cap as total, appends the cap
warning, scales every amount by `cap/original_total`, and recomputes
every percentage from the scaled amounts. -/
theorem income_cap_amended (bd : BudgetData) (s : Student)
    (hmi : 0 < monthlyIncome s)
    (hcap : monthlyIncome s * 1.2 < bd.total_monthly_budget)
    (hess : ∀ p ∈ bd.categories, p.1 ∈ essentialCategories →
      10 ≤ p.2.amount / bd.total_monthly_budget * 100)
    (hpos : 0 < amtSum bd) :
    (validateBudgetRecommendation bd s).total_monthly_budget =
      monthlyIncome s * 1.2 ∧
    (validateBudgetRecommendation bd s).risk_warnings =
      bd.risk_warnings ++ [capWarning] ∧
    (validateBudgetRecommendation bd s).categories.map (fun p => p.2.amount) =
      bd.categories.map (fun p =>
        p.2.amount * (monthlyIncome s * 1.2 / bd.total_monthly_budget)) ∧
    (validateBudgetRecommendation bd s).categories.map (fun p => p.2.percentage) =
      bd.categories.map (fun p =>
        p.2.amount * (monthlyIncome s * 1.2 / bd.total_monthly_budget) /
          (amtSum bd * (monthlyIncome s * 1.2 / bd.total_monthly_budget)) * 100) := by
  have hcapPos : 0 < monthlyIncome s * 1.2 := by linarith
  have htot : 0 < bd.total_monthly_budget := lt_trans hcapPos hcap
  have hkpos : 0 < monthlyIncome s * 1.2 / bd.total_monthly_budget :=
    div_pos hcapPos htot
  have hc : capStage bd s =
      { bd with
        categories := bd.categories.map (fun p =>
          (p.1, { p.2 with
                  amount := p.2.amount * (monthlyIncome s * 1.2 / bd.total_monthly_budget),
                  percentage := p.2.amount * (monthlyIncome s * 1.2 / bd.total_monthly_budget) /
                    (monthlyIncome s * 1.2) * 100 })),
        total_monthly_budget := monthlyIncome s * 1.2,
        risk_warnings := bd.risk_warnings ++ [capWarning] } := by
    unfold capStage
    exact if_pos ⟨hcap, hcapPos⟩
  have hnoop : essentialsStage bd.total_monthly_budget (capStage bd s) =
      capStage bd s := by
    apply essentialsStage_noop
    intro p hp hmem
    rw [hc] at hp
    simp only [List.mem_map] at hp
    obtain ⟨q, hq, rfl⟩ := hp
    have h10 := hess q hq hmem
    have heq : q.2.amount * (monthlyIncome s * 1.2 / bd.total_monthly_budget) /
        (monthlyIncome s * 1.2) * 100 = q.2.amount / bd.total_monthly_budget * 100 := by
      field_simp
      ring
    show 10 ≤ q.2.amount * (monthlyIncome s * 1.2 / bd.total_monthly_budget) /
        (monthlyIncome s * 1.2) * 100
    rw [heq]
    exact h10
  have hv : validateBudgetRecommendation bd s = renormStage (capStage bd s) := by
    unfold validateBudgetRecommendation
    rw [hnoop]
  have hS : amtSum (capStage bd s) =
      amtSum bd * (monthlyIncome s * 1.2 / bd.total_monthly_budget) := by
    rw [hc]
    exact listAmt_scaleMap bd.categories _ _
  have hSpos : 0 < amtSum (capStage bd s) := by
    rw [hS]
    exact mul_pos hpos hkpos
  refine ⟨?_, ?_, ?_, ?_⟩
  · rw [hv, renormStage_total, hc]
  · rw [hv, renormStage_warnings, hc]
  · rw [hv, renormStage_amounts, hc, List.map_map]
    rfl
  · rw [hv, renormStage_pcts _ hSpos, hS, hc, List.map_map]
    rfl

/-- Parsed AI budget (total 2400) whose two essential categories each
hold 50%, against the 1200 cap of `studentAllowance1000`. -/
def bdEssentialTall : BudgetData :=
  { total_monthly_budget := 2400,
    categories := [("tuition_fee", ⟨1200, 50, "a"⟩), ("food", ⟨1200, 50, "b"⟩)],
    ai_confidence_score := 0.8,
    key_recommendations := [],
    risk_warnings := ["prior"] }

/-- C5 amended witness at concrete inputs. -/
theorem income_cap_amended_witness :
    (validateBudgetRecommendation bdEssentialTall studentAllowance1000).total_monthly_budget =
      monthlyIncome studentAllowance1000 * 1.2 ∧
    (validateBudgetRecommendation bdEssentialTall studentAllowance1000).risk_warnings =
      bdEssentialTall.risk_warnings ++ [capWarning] ∧
    (validateBudgetRecommendation bdEssentialTall studentAllowance1000).categories.map
        (fun p => p.2.amount) =
      bdEssentialTall.categories.map (fun p =>
        p.2.amount * (monthlyIncome studentAllowance1000 * 1.2 /
          bdEssentialTall.total_monthly_budget)) ∧
    (validateBudgetRecommendation bdEssentialTall studentAllowance1000).categories.map
        (fun p => p.2.percentage) =
      bdEssentialTall.categories.map (fun p =>
        p.2.amount * (monthlyIncome studentAllowance1000 * 1.2 /
          bdEssentialTall.total_monthly_budget) /
          (amtSum bdEssentialTall * (monthlyIncome studentAllowance1000 * 1.2 /
            bdEssentialTall.total_monthly_budget)) * 100) :=
  income_cap_amended bdEssentialTall studentAllowance1000
    (by norm_num [monthlyIncome, pyOr, studentAllowance1000])
    (by norm_num [monthlyIncome, pyOr, studentAllowance1000, bdEssentialTall])
    (by
      intro p hp hmem
      simp only [bdEssentialTall, List.mem_cons, List.not_mem_nil, or_false] at hp
      rcases hp with rfl | rfl <;> norm_num [bdEssentialTall])
    (by norm_num [amtSum, bdEssentialTall])

/-- Modelled from the spec sentence of C6: per-budget penalty, with the
cap folded into the otherwise-branch. -/
def specBudgetPenalty (u : ℚ) : ℚ :=
  if 0.8 ≤ u ∧ u ≤ 0.9 then 0
  else if 1 < u then 100
  else min (|u - 0.85| * 200) 100

theorem penalty_min_eq_spec (u : ℚ) :
    min (compliancePenalty u) 100 = specBudgetPenalty u := by
  unfold compliancePenalty specBudgetPenalty
  split_ifs <;> norm_num

/-- C6: with no active budgets the compliance sub-score is the neutral
50; with active budgets (all with positive totals, as creation
validation guarantees) it is the average of the per-budget penalties. -/
theorem budget_compliance_spec :
    budgetComplianceScore [] = 50 ∧
    ∀ (bs : List Budget), bs ≠ [] → (∀ b ∈ bs, 0 < b.total_amount) →
      budgetComplianceScore bs =
        (bs.map (fun b => specBudgetPenalty (b.spent_amount / b.total_amount))).sum /
          (bs.length : ℚ) := by
  constructor
  · rfl
  · intro bs hne hpos
    cases bs with
    | nil => exact absurd rfl hne
    | cons b t =>
      unfold budgetComplianceScore
      have hfil : (b :: t).filter (fun x => decide (0 < x.total_amount)) = b :: t :=
        List.filter_eq_self.mpr (fun a ha => decide_eq_true (hpos a ha))
      simp only [List.isEmpty_cons, Bool.false_eq_true, if_false, hfil,
        List.length_cons, Nat.succ_pos, if_pos, penalty_min_eq_spec]

/-- C6 witness: one ideal budget (85% spent) and one overspent budget
average to 50. -/
theorem budget_compliance_spec_witness :
    budgetComplianceScore
        [⟨100, 85, 0.8, .active, 0, 30, none⟩, ⟨100, 120, 0.8, .active, 0, 30, none⟩] =
      (([⟨100, 85, 0.8, .active, 0, 30, none⟩,
         ⟨100, 120, 0.8, .active, 0, 30, none⟩] : List Budget).map
        (fun b => specBudgetPenalty (b.spent_amount / b.total_amount))).sum /
        (([⟨100, 85, 0.8, .active, 0, 30, none⟩,
           ⟨100, 120, 0.8, .active, 0, 30, none⟩] : List Budget).length : ℚ) :=
  budget_compliance_spec.2 _ (by simp)
    (by
      intro x hx
      simp only [List.mem_cons, List.not_mem_nil, or_false] at hx
      rcases hx with rfl | rfl <;> norm_num)

/-- C7 counterexample: one approved and one still-pending (submitted)
application.  The code counts the pending application in the
denominator and returns score 50 (dropout contribution 5), while the
claim's terminal-state success rate is 100%, giving score 0
(contribution 0). -/
theorem scholarship_success_counterexample :
    scholarshipSuccessScore [.approved, .submitted] = 50 ∧
    specTerminalSuccessScore [.approved, .submitted] = 0 := by
  have hs1 : List.countP
      (fun a => decide (a = ApplicationStatus.approved ∨
        a = ApplicationStatus.awarded ∨ a = ApplicationStatus.disbursed))
      [ApplicationStatus.approved, ApplicationStatus.submitted] = 1 := by decide
  have hc1 : List.countP
      (fun a => decide (a = ApplicationStatus.approved ∨
        a = ApplicationStatus.awarded ∨ a = ApplicationStatus.disbursed ∨
        a = ApplicationStatus.rejected ∨ a = ApplicationStatus.submitted ∨
        a = ApplicationStatus.under_review))
      [ApplicationStatus.approved, ApplicationStatus.submitted] = 2 := by decide
  have ht1 : List.countP
      (fun a => decide (a = ApplicationStatus.approved ∨
        a = ApplicationStatus.awarded ∨ a = ApplicationStatus.disbursed ∨
        a = ApplicationStatus.rejected))
      [ApplicationStatus.approved, ApplicationStatus.submitted] = 1 := by decide
  constructor
  · simp only [scholarshipSuccessScore, List.isEmpty_cons, hs1, hc1]
    norm_num
  · simp only [specTerminalSuccessScore, List.isEmpty_cons, hs1, ht1]
    norm_num

/-- C7 amended: the success rate divides by the number of applications
in any of the six tracked statuses — pending submitted/under-review
applications included, not just terminal ones; no applications gives
the neutral 50. -/
theorem scholarship_success_amended :
    scholarshipSuccessScore [] = 50 ∧
    ∀ (apps : List ApplicationStatus), apps ≠ [] →
      scholarshipSuccessScore apps =
        100 - ((apps.countP
            (fun a => a = .approved ∨ a = .awarded ∨ a = .disbursed) : ℚ) /
          (apps.length : ℚ)) * 100 := by
  constructor
  · rfl
  · intro apps hne
    have hcons : apps.countP
        (fun a => decide (a = .approved ∨ a = .awarded ∨ a = .disbursed ∨
          a = .rejected ∨ a = .submitted ∨ a = .under_review)) = apps.length :=
      List.countP_eq_length.mpr (fun a _ => by cases a <;> simp)
    cases apps with
    | nil => exact absurd rfl hne
    | cons a t =>
      unfold scholarshipSuccessScore
      simp only [List.isEmpty_cons, Bool.false_eq_true, if_false, hcons,
        List.length_cons, Nat.succ_ne_zero, if_neg]

/-- C7 amended witness: a single submitted application gives score 100. -/
theorem scholarship_success_amended_witness :
    scholarshipSuccessScore [.submitted] =
      100 - ((List.countP
          (fun a => a = .approved ∨ a = .awarded ∨ a = .disbursed)
          [ApplicationStatus.submitted] : ℚ) /
        (([ApplicationStatus.submitted] : List ApplicationStatus).length : ℚ)) * 100 :=
  scholarship_success_amended.2 [.submitted] (by simp)

/-- Active budget with a zero total. -/
def zeroBudget : Budget :=
  { total_amount := 0, spent_amount := 0, alert_threshold := 0.8,
    status := .active, start_date := 0, end_date := 30,
    last_alert_sent_at := none }

/-- C8 counterexample: `check_budget_alerts` on an ACTIVE budget with a
zero total divides `spent_amount / total_amount` with no guard, raising
`ZeroDivisionError` (modelled by `none`) — the claim says alert checking
never raises on a zero budget total. -/
theorem arithmetic_edge_counterexample :
    checkBudgetAlerts zeroBudget 15 1000 = none := by
  simp [checkBudgetAlerts, zeroBudget]

/-- C8 amended: zero income saturates the expense sub-score at 100 with
no division and zeroes the savings sub-score; zero-total budgets are
skipped by compliance scoring, and all-zero-total (or empty) budget
lists give the neutral 50; an empty expense list just sums to 0; but
alert checking only avoids division for budgets with positive totals
and ordered dates (guaranteed at creation: `total_amount > 0`,
`end_date > start_date`). -/
theorem arithmetic_edge_amended :
    (∀ (s : Student) (e : ℚ), monthlyIncome s ≤ 0 → expenseScore s e = 100) ∧
    (∀ (s : Student) (es : List ℚ) (bs : List Budget), monthlyIncome s ≤ 0 →
      calculateFinancialStressScore s es bs =
        min (max (100 * 0.40 + debtScore s * 0.25 + 0 * 0.20 +
          budgetComplianceScore bs * 0.15) 0) 100) ∧
    (∀ (bs : List Budget), (∀ b ∈ bs, b.total_amount = 0) →
      budgetComplianceScore bs = 50) ∧
    (∀ (b : Budget) (today now_h : ℤ), 0 < b.total_amount →
      b.start_date ≤ b.end_date → (checkBudgetAlerts b today now_h).isSome = true) ∧
    (∀ (s : Student) (bs : List Budget),
      calculateFinancialStressScore s [] bs =
        min (max (expenseScore s 0 * 0.40 + debtScore s * 0.25 +
          savingsScore s 0 * 0.20 + budgetComplianceScore bs * 0.15) 0) 100) := by
  refine ⟨?_, ?_, ?_, ?_, ?_⟩
  · intro s e h
    unfold expenseScore
    rw [if_neg (not_lt.mpr h)]
  · intro s es bs h
    simp only [calculateFinancialStressScore, expenseScore, savingsScore,
      if_neg (not_lt.mpr h)]
  · intro bs hz
    cases bs with
    | nil => rfl
    | cons b t =>
      unfold budgetComplianceScore
      have hfil : (b :: t).filter (fun x => decide (0 < x.total_amount)) = [] :=
        List.filter_eq_nil_iff.mpr (fun a ha => by
          simp [hz a ha])
      simp [hfil]
  · intro b today now_h htot hdate
    unfold checkBudgetAlerts
    by_cases hst : b.status ≠ BudgetStatus.active
    · rw [if_pos hst]
      rfl
    · rw [if_neg hst, if_neg (ne_of_gt htot), if_neg (by omega :
        ¬(b.end_date - b.start_date + 1 = 0))]
      rfl
  · intro s bs
    rfl

/-- C8 amended witness at a concrete positive-total budget. -/
theorem arithmetic_edge_amended_witness :
    (checkBudgetAlerts
      ⟨100, 85, 0.8, .active, 0, 30, none⟩ 15 1000).isSome = true :=
  arithmetic_edge_amended.2.2.2.1 ⟨100, 85, 0.8, .active, 0, 30, none⟩ 15 1000
    (by norm_num) (by norm_num)

theorem numericDeduction_nonneg (b : Option ℚ) (c : ℚ → Bool) (p : ℚ)
    (hp : 0 ≤ p) : 0 ≤ numericDeduction b c p := by
  cases b with
  | none => exact le_rfl
  | some m =>
    simp only [numericDeduction]
    split_ifs
    · exact hp
    · exact le_rfl

theorem setDeduction_nonneg (a : Option (List String)) (v : String) (p : ℚ)
    (hp : 0 ≤ p) : 0 ≤ setDeduction a v p := by
  cases a with
  | none => exact le_rfl
  | some l =>
    simp only [setDeduction]
    split_ifs
    · exact hp
    · exact le_rfl

theorem academicDeduction_nonneg (b v : Option ℚ) (p : ℚ)
    (hp : 0 ≤ p) : 0 ≤ academicDeduction b v p := by
  cases b <;> cases v <;> simp only [academicDeduction] <;>
    first
      | exact le_rfl
      | (split_ifs <;> first | exact hp | exact le_rfl)

/-- C10: a nonzero maximum-income bound (creation validation requires
`max_income > 0`) exceeded by the student's family income always costs
the 0.3 income-above-maximum penalty, so the eligibility score stays
strictly below 1.0. -/
theorem income_above_max_penalty (st : Student) (sch : Scholarship) (m : ℚ)
    (hb : sch.max_income = some m) (hm : m ≠ 0)
    (hinc : m < st.family_annual_income) :
    calculateEligibilityScore st sch < 1 := by
  unfold calculateEligibilityScore
  rw [hb]
  have hd2 : numericDeduction (some m)
      (fun x => decide (x < st.family_annual_income)) 0.3 = 0.3 := by
    simp only [numericDeduction]
    rw [if_pos ⟨hm, decide_eq_true hinc⟩]
  rw [hd2]
  have h1 := numericDeduction_nonneg sch.min_income
    (fun x => decide (st.family_annual_income < x)) 0.3 (by norm_num)
  have h3 := setDeduction_nonneg sch.eligible_castes st.caste_category 0.2 (by norm_num)
  have h4 := setDeduction_nonneg sch.eligible_genders st.gender 0.1 (by norm_num)
  have h5 := setDeduction_nonneg sch.eligible_courses st.course_name 0.2 (by norm_num)
  have h6 := setDeduction_nonneg sch.eligible_states st.state 0.1 (by norm_num)
  have h7 := academicDeduction_nonneg sch.min_percentage st.last_semester_percentage
    0.3 (by norm_num)
  have h8 := academicDeduction_nonneg sch.min_cgpa st.current_cgpa 0.3 (by norm_num)
  refine max_lt (by norm_num) (lt_of_le_of_lt (min_le_right _ _) ?_)
  linarith

/-- Scholarship with only an income ceiling of 500000. -/
def scholarship500k : Scholarship :=
  { min_income := some 0, max_income := some 500000,
    eligible_castes := none, eligible_genders := none,
    eligible_courses := none, eligible_states := none,
    min_percentage := none, min_cgpa := none }

/-- Student with family income 800000. -/
def studentRich : Student :=
  { family_annual_income := 800000, monthly_allowance := none,
    has_education_loan := false, education_loan_amount := none,
    current_cgpa := none, current_year := 2, city := "pune",
    caste_category := "general", gender := "female", course_name := "mbbs",
    state := "MH", last_semester_percentage := none }

/-- C10 witness: the claim's own scenario. -/
theorem income_above_max_penalty_witness :
    calculateEligibilityScore studentRich scholarship500k < 1 :=
  income_above_max_penalty studentRich scholarship500k 500000 rfl
    (by norm_num) (by norm_num [studentRich])

end EduFundia
